import Mathlib

/-!
Shallow embedding of `src/Streamlit.py` (post-operative care chatbot).

The script keeps a session state holding a chat transcript (`messages`),
a loaded document bundle (`pdf_contents`) and a concatenated protocol
string (`protocols_text`).  Each user interaction either handles a chat
input (append user turn, build the API message list, stream a reply,
commit the assistant turn on success) or clears the chat history.
All mutable Streamlit session state is modelled by explicit state
passing; the streamed provider reply is modelled by the list of text
increments it yields (or a failure carrying the increments seen before
the exception).
-/

namespace PostOp

/-- Chat roles, as stored in `st.session_state.messages` entries. -/
inductive Role where
  | user
  | assistant
deriving DecidableEq, Repr

/-- One transcript entry: a dict `\x7b"role": ..., "content": ...\x7d` in the source. -/
structure Msg where
  role : Role
  content : String
deriving DecidableEq, Repr

/-- One item of a structured API message content list.  A `document` item models
the dict built in `load_pdfs` (media type `application/pdf`, base64 payload,
ephemeral cache hint); the base64-encoded bytes are carried as an opaque
string, since no claim inspects the encoding itself. -/
inductive ContentItem where
  | document (media_type : String) (data : String) (cache_control : String)
  | text (s : String)
deriving DecidableEq, Repr

/-- Content of an outbound API message: either the plain string used for
ordinary turns, or the structured item list used for the first turn. -/
inductive ApiContent where
  | plain (s : String)
  | items (l : List ContentItem)
deriving DecidableEq, Repr

/-- One entry of the `api_messages` list sent to the completion provider. -/
structure ApiMessage where
  role : Role
  content : ApiContent
deriving DecidableEq, Repr

/-- `load_pdfs` (src/Streamlit.py lines 30-56): `none` models an absent
`postop_handouts` directory (error shown, empty list returned); `some files`
models the directory listing of `*.pdf` files as (name, raw bytes) pairs in
listing order, each mapped to a document item. -/
def load_pdfs (pdfDir : Option (List (String × String))) : List ContentItem :=
  match pdfDir with
  | none => []
  | some files =>
      files.map fun f => ContentItem.document "application/pdf" f.2 "ephemeral"

/-- `load_protocols` (src/Streamlit.py lines 59-75): `none` models an absent
`protocols` directory; `some files` models the listing of `*.txt` files as
(name, content) pairs in listing order.  Each file contributes a header
followed by its content, accumulated left to right. -/
def load_protocols (protocolDir : Option (List (String × String))) : String :=
  match protocolDir with
  | none => ""
  | some files =>
      if files.isEmpty then ""
      else files.foldl (fun acc f => acc ++ "\n\n=== " ++ f.1 ++ " ===\n\n" ++ f.2) ""

/-- Modelled from the spec: the spec describes the protocol loader's output as
"the concatenation, in listing order, of a header line of the form
`\n\n=== <filename> ===\n\n` followed by that file's content, for each matching
file".  This definition follows those words directly, to be compared with
`load_protocols` (which is translated from the source). -/
def spec_protocol_concat : List (String × String) → String
  | [] => ""
  | f :: rest => "\n\n=== " ++ f.1 ++ " ===\n\n" ++ f.2 ++ spec_protocol_concat rest

/-- The Streamlit session state the script mutates: chat history plus the
reference bundle loaded once (src/Streamlit.py lines 77-84). -/
structure SessionState where
  messages : List Msg
  pdf_contents : List ContentItem
  protocols_text : String
deriving DecidableEq, Repr

/-- `api_messages` construction (src/Streamlit.py lines 120-139): when the
transcript holds exactly one message, send a single user message whose content
is a copy of the document list followed by a trailing text item holding
`messages[0]["content"]`; otherwise send one plain role-and-text message per
transcript entry. -/
def build_api_messages (messages : List Msg) (pdf_contents : List ContentItem) :
    List ApiMessage :=
  if messages.length = 1 then
    [{ role := Role.user,
       content := ApiContent.items
         (pdf_contents ++
           [ContentItem.text (messages.headD { role := Role.user, content := "" }).content]) }]
  else
    messages.map fun m => { role := m.role, content := ApiContent.plain m.content }

/-- Outcome of one `client.messages.stream` call: success yields the ordered
list of text increments; failure models an exception raised before or during
streaming, carrying the increments already yielded and the error text. -/
inductive StreamOutcome where
  | success (chunks : List String)
  | failure (chunksBefore : List String) (err : String)
deriving DecidableEq, Repr

/-- Everything one run of the chat-input block produces: the new session
state, the API message list sent (none when the input was falsy), the
successive strings written to the streaming placeholder, and the error
message shown by `st.error` (none on success). -/
structure TurnResult where
  state : SessionState
  payload : Option (List ApiMessage)
  displayed : List String
  error_shown : Option String
deriving DecidableEq, Repr

/-- The streaming loop (src/Streamlit.py lines 150-152): fold over the text
increments, accumulating `full_response` and recording each intermediate
placeholder write `full_response + "▌"`. -/
def streamFold (chunks : List String) : String × List String :=
  chunks.foldl
    (fun (acc : String × List String) t =>
      let full := acc.1 ++ t
      (full, acc.2 ++ [full ++ "▌"])) ("", [])

/-- The chat-input turn handler (src/Streamlit.py lines 92-160).  The walrus
guard `if prompt :=` skips the whole block when the prompt is falsy (the empty
string); otherwise the user turn is appended, `api_messages` is built and the
provider call issued.  On success the accumulated `full_response` is rendered
without the continuation marker and committed as an assistant turn; on an
exception nothing is committed and `st.error` shows the message. -/
def handleChat (s : SessionState) (prompt : String) (outcome : StreamOutcome) :
    TurnResult :=
  if prompt = "" then
    { state := s, payload := none, displayed := [], error_shown := none }
  else
    let afterUser : SessionState :=
      { s with messages := s.messages ++ [{ role := Role.user, content := prompt }] }
    let api := build_api_messages afterUser.messages s.pdf_contents
    match outcome with
    | .success chunks =>
        let folded := streamFold chunks
        let full_response := folded.1
        { state :=
            { afterUser with
              messages :=
                afterUser.messages ++
                  [{ role := Role.assistant, content := full_response }] },
          payload := some api,
          displayed := folded.2 ++ [full_response],
          error_shown := none }
    | .failure chunksBefore e =>
        { state := afterUser,
          payload := some api,
          displayed := (streamFold chunksBefore).2,
          error_shown := some ("Error: " ++ e) }

/-- One user interaction with the app: either a chat input together with the
outcome of the resulting provider call, or a press of the "Clear Chat
History" button (src/Streamlit.py lines 186-188). -/
inductive Event where
  | chat (prompt : String) (outcome : StreamOutcome)
  | clear
deriving DecidableEq, Repr

/-- Session-state transition of one event. -/
def step (s : SessionState) : Event → SessionState
  | .chat p o => (handleChat s p o).state
  | .clear => { s with messages := [] }

/-- Run a sequence of events from a state. -/
def runEvents (s : SessionState) (es : List Event) : SessionState :=
  es.foldl step s

/-- The API message lists actually sent to the provider over a sequence of
events (one per non-falsy chat input, in order). -/
def sentPayloads (s : SessionState) : List Event → List (List ApiMessage)
  | [] => []
  | Event.chat p o :: rest =>
      let r := handleChat s p o
      (match r.payload with
       | some pl => [pl]
       | none => []) ++ sentPayloads r.state rest
  | Event.clear :: rest => sentPayloads (step s Event.clear) rest

/-- Number of document items inside one content item. -/
def itemDocCount : ContentItem → Nat
  | .document _ _ _ => 1
  | .text _ => 0

/-- Number of document items inside one API message content. -/
def contentDocCount : ApiContent → Nat
  | .plain _ => 0
  | .items l => (l.map itemDocCount).sum

/-- Total number of document attachments anywhere in an API message list. -/
def payloadDocCount (p : List ApiMessage) : Nat :=
  (p.map fun m => contentDocCount m.content).sum

/-- How many of the sent payloads carry at least one document attachment. -/
def payloadsWithDocs (ps : List (List ApiMessage)) : Nat :=
  ps.countP fun p => payloadDocCount p != 0

/-- Fuel-driven count of non-overlapping occurrences of `needle` in a
character list, scanning left to right; the fuel is the haystack length. -/
def countSubstrFuel (needle : List Char) : Nat → List Char → Nat
  | 0, _ => 0
  | _, [] => 0
  | fuel + 1, c :: rest =>
      if needle.isPrefixOf (c :: rest) then
        countSubstrFuel needle fuel (rest.drop (needle.length - 1)) + 1
      else
        countSubstrFuel needle fuel rest

/-- Models Python `s.count(needle)` for a nonempty `needle`: the number of
non-overlapping occurrences, scanning left to right. -/
def pyCount (s needle : String) : Nat :=
  countSubstrFuel needle.data s.data.length s.data

/-- The sidebar protocol counter (src/Streamlit.py line 180):
`st.session_state.protocols_text.count("===")`. -/
def protocol_count (protocols_text : String) : Nat :=
  pyCount protocols_text "==="

/-- The sidebar protocol line (src/Streamlit.py lines 179-181): shown only
when `protocols_text` is truthy, displaying `protocol_count`. -/
def sidebar_protocol_line (protocols_text : String) : Option Nat :=
  if protocols_text = "" then none else some (protocol_count protocols_text)

/-- Roles of a transcript, in order. -/
def rolesOf (msgs : List Msg) : List Role := msgs.map Msg.role

/-- The other role. -/
def otherRole : Role → Role
  | .user => .assistant
  | .assistant => .user

/-- Strict alternation of a role list starting from `r`. -/
def alternatingFrom : Role → List Role → Bool
  | _, [] => true
  | r, x :: xs => decide (x = r) && alternatingFrom (otherRole r) xs

/-- The role expected at position `n` when alternation starts from `r`. -/
def roleAt (r : Role) : Nat → Role
  | 0 => r
  | n + 1 => otherRole (roleAt r n)

/-- A session state used by concrete scenarios: empty transcript, no
documents, no protocol text. -/
def init0 : SessionState :=
  { messages := [], pdf_contents := [], protocols_text := "" }

/-- A session state with one loaded document and an empty transcript. -/
def init1 : SessionState :=
  { messages := [],
    pdf_contents := [ContentItem.document "application/pdf" "JVBERi0xLjQ=" "ephemeral"],
    protocols_text := "" }

/-- The protocols-directory listing of spec scenario 5: two text files. -/
def protocols_two_files : List (String × String) :=
  [("wound_care.txt", "Keep the incision dry for 48 hours."),
   ("pt_schedule.txt", "Begin passive motion in week one.")]

/-- A transcript is in committed form when its roles strictly alternate
starting with `user` and it has even length (so it is empty or ends with an
assistant turn). -/
def committedForm (msgs : List Msg) : Prop :=
  alternatingFrom Role.user (rolesOf msgs) = true ∧ msgs.length % 2 = 0

/-- A payload built from plain role-and-text entries carries no document items. -/
theorem payloadDocCount_map_plain (msgs : List Msg) :
    payloadDocCount
      (msgs.map fun m => { role := m.role, content := ApiContent.plain m.content }) = 0 := by
  induction msgs with
  | nil => rfl
  | cons m rest ih => simpa [payloadDocCount, contentDocCount] using ih

/-- The first component of the streaming fold is the plain left fold of
string concatenation, independent of the display accumulator. -/
theorem streamFold_go (chunks : List String) (a : String) (d : List String) :
    (chunks.foldl
      (fun (acc : String × List String) t =>
        let full := acc.1 ++ t
        (full, acc.2 ++ [full ++ "▌"])) (a, d)).1
      = chunks.foldl (fun r s => r ++ s) a := by
  induction chunks generalizing a d with
  | nil => rfl
  | cons c cs ih => exact ih (a ++ c) _

/-- The accumulated `full_response` is the concatenation of all increments. -/
theorem streamFold_fst (chunks : List String) :
    (streamFold chunks).1 = String.join chunks :=
  streamFold_go chunks "" []

/-- Left fold of the protocol accumulation, with a generalized accumulator. -/
theorem load_protocols_foldl (files : List (String × String)) (a : String) :
    files.foldl (fun acc f => acc ++ "\n\n=== " ++ f.1 ++ " ===\n\n" ++ f.2) a
      = a ++ spec_protocol_concat files := by
  induction files generalizing a with
  | nil => simp [spec_protocol_concat]
  | cons f rest ih =>
      rw [List.foldl_cons, ih]
      simp [spec_protocol_concat, String.append_assoc]

/-- Flipping the role twice is the identity. -/
theorem otherRole_otherRole (r : Role) : otherRole (otherRole r) = r := by
  cases r <;> rfl

/-- `roleAt` commutes with flipping the start role. -/
theorem roleAt_otherRole (r : Role) (n : Nat) :
    roleAt (otherRole r) n = otherRole (roleAt r n) := by
  induction n with
  | zero => rfl
  | succ k ih => simp [roleAt, ih]

/-- `roleAt` only depends on the parity of the index. -/
theorem roleAt_eq (r : Role) (n : Nat) :
    roleAt r n = if n % 2 = 0 then r else otherRole r := by
  induction n with
  | zero => rfl
  | succ k ih =>
    by_cases h : k % 2 = 0
    · have h1 : (k + 1) % 2 = 1 := by omega
      simp [roleAt, ih, h, h1]
    · have h1 : (k + 1) % 2 = 0 := by omega
      simp [roleAt, ih, h, h1, otherRole_otherRole]

/-- Splitting strict alternation across an append. -/
theorem alternatingFrom_append (l m : List Role) (r : Role) :
    alternatingFrom r (l ++ m)
      = (alternatingFrom r l && alternatingFrom (roleAt r l.length) m) := by
  induction l generalizing r with
  | nil => simp [alternatingFrom, roleAt]
  | cons x xs ih =>
    simp only [List.cons_append, alternatingFrom, List.length_cons, roleAt,
      List.append_eq]
    rw [ih (otherRole r), roleAt_otherRole, Bool.and_assoc]

/-- A successful turn preserves the committed form of the transcript. -/
theorem committedForm_success (s : SessionState) (p : String) (chunks : List String)
    (h : committedForm s.messages) :
    committedForm (handleChat s p (StreamOutcome.success chunks)).state.messages := by
  by_cases hp : p = ""
  · simpa [handleChat, hp] using h
  · obtain ⟨halt, hlen⟩ := h
    constructor
    · simp only [handleChat, hp, if_neg, reduceIte]
      simp only [rolesOf, List.append_assoc, List.map_append] at *
      rw [alternatingFrom_append]
      simp only [halt, Bool.true_and]
      rw [roleAt_eq]
      simp only [List.length_map, hlen, reduceIte]
      simp [alternatingFrom, otherRole]
    · simp only [handleChat, hp, reduceIte]
      simp only [List.append_assoc, List.length_append, List.length_cons]
      omega

/-- A failed turn with a nonempty prompt appends exactly one user turn; from
a committed-form transcript the roles still alternate and now end in `user`. -/
theorem failedTurn_form (s : SessionState) (p : String) (pre : List String)
    (e : String) (hp : p ≠ "") (h : committedForm s.messages) :
    alternatingFrom Role.user
        (rolesOf (handleChat s p (StreamOutcome.failure pre e)).state.messages) = true
    ∧ (rolesOf (handleChat s p (StreamOutcome.failure pre e)).state.messages).getLast?
        = some Role.user := by
  obtain ⟨halt, hlen⟩ := h
  constructor
  · simp only [handleChat, hp, reduceIte]
    simp only [rolesOf, List.map_append] at *
    rw [alternatingFrom_append]
    simp only [halt, Bool.true_and]
    rw [roleAt_eq]
    simp only [List.length_map, hlen, reduceIte]
    simp [alternatingFrom]
  · simp [handleChat, hp, rolesOf]

/-- C1: the assembled API message list attaches the document sequence exactly
when the transcript length is 1 — in that case it is one user message whose
content is the full ordered document list followed by a trailing text item
holding the single (user) message's text; for any other length it is one
plain role-and-text message per turn with zero document attachments. -/
theorem c1_first_turn_attachment (msgs : List Msg) (pdfs : List ContentItem) :
    (msgs.length = 1 →
      build_api_messages msgs pdfs
        = [{ role := Role.user,
             content := ApiContent.items
               (pdfs ++
                 [ContentItem.text
                   (msgs.headD { role := Role.user, content := "" }).content]) }])
    ∧ (msgs.length ≠ 1 →
        build_api_messages msgs pdfs
            = msgs.map (fun m => { role := m.role, content := ApiContent.plain m.content })
          ∧ payloadDocCount (build_api_messages msgs pdfs) = 0) := by
  constructor
  · intro h
    simp [build_api_messages, h]
  · intro h
    have heq : build_api_messages msgs pdfs
        = msgs.map fun m => { role := m.role, content := ApiContent.plain m.content } := by
      simp [build_api_messages, h]
    exact ⟨heq, heq ▸ payloadDocCount_map_plain msgs⟩

/-- Witness for C1 at concrete inputs: a length-1 transcript gets the
document list plus trailing text, a length-2 transcript gets plain messages
with zero document attachments. -/
theorem c1_first_turn_attachment_witness :
    (build_api_messages [{ role := Role.user, content := "hi" }]
        [ContentItem.document "application/pdf" "JVBERi0xLjQ=" "ephemeral"]
      = [{ role := Role.user,
           content := ApiContent.items
             [ContentItem.document "application/pdf" "JVBERi0xLjQ=" "ephemeral",
              ContentItem.text "hi"] }])
    ∧ (build_api_messages
          [{ role := Role.user, content := "hi" },
           { role := Role.assistant, content := "hello" }]
          [ContentItem.document "application/pdf" "JVBERi0xLjQ=" "ephemeral"]
          = [{ role := Role.user, content := ApiContent.plain "hi" },
             { role := Role.assistant, content := ApiContent.plain "hello" }]
        ∧ payloadDocCount (build_api_messages
            [{ role := Role.user, content := "hi" },
             { role := Role.assistant, content := "hello" }]
            [ContentItem.document "application/pdf" "JVBERi0xLjQ=" "ephemeral"]) = 0) :=
  ⟨(c1_first_turn_attachment [{ role := Role.user, content := "hi" }]
      [ContentItem.document "application/pdf" "JVBERi0xLjQ=" "ephemeral"]).1 rfl,
   (c1_first_turn_attachment
      [{ role := Role.user, content := "hi" },
       { role := Role.assistant, content := "hello" }]
      [ContentItem.document "application/pdf" "JVBERi0xLjQ=" "ephemeral"]).2 (by decide)⟩

/-- C3: when the provider call raises (before or during streaming) on a
nonempty prompt, the transcript gains exactly the user turn and no assistant
turn, the error message is surfaced, and any later nonempty input is handled
as a fresh turn (its user turn is appended to the preserved transcript). -/
theorem c3_failure_no_commit (s : SessionState) (p : String) (pre : List String)
    (e : String) (hp : p ≠ "") :
    (handleChat s p (StreamOutcome.failure pre e)).state.messages
        = s.messages ++ [{ role := Role.user, content := p }]
    ∧ (handleChat s p (StreamOutcome.failure pre e)).error_shown
        = some ("Error: " ++ e)
    ∧ ∀ p2 o2, p2 ≠ "" →
        ∃ t, (handleChat (handleChat s p (StreamOutcome.failure pre e)).state p2 o2).state.messages
          = (handleChat s p (StreamOutcome.failure pre e)).state.messages
              ++ { role := Role.user, content := p2 } :: t := by
  refine ⟨by simp [handleChat, hp], by simp [handleChat, hp], ?_⟩
  intro p2 o2 hp2
  cases o2 with
  | success chunks =>
      exact ⟨[{ role := Role.assistant, content := (streamFold chunks).1 }],
        by simp [handleChat, hp2]⟩
  | failure pre2 e2 => exact ⟨[], by simp [handleChat, hp2]⟩

/-- Witness for C3: a concrete failed turn on an empty session, followed by a
concrete successful next turn. -/
theorem c3_failure_no_commit_witness :
    (handleChat init0 "hi" (StreamOutcome.failure [] "rate limit")).state.messages
        = [{ role := Role.user, content := "hi" }]
    ∧ (handleChat init0 "hi" (StreamOutcome.failure [] "rate limit")).error_shown
        = some "Error: rate limit"
    ∧ ∃ t, (handleChat (handleChat init0 "hi" (StreamOutcome.failure [] "rate limit")).state
          "next" (StreamOutcome.success ["fine"])).state.messages
        = (handleChat init0 "hi" (StreamOutcome.failure [] "rate limit")).state.messages
            ++ { role := Role.user, content := "next" } :: t :=
  have h := c3_failure_no_commit init0 "hi" [] "rate limit" (by decide)
  ⟨h.1, h.2.1, h.2.2 "next" (StreamOutcome.success ["fine"]) (by decide)⟩

/-- C4: on a successful streaming call with a nonempty prompt, the committed
assistant text is exactly the ordered concatenation of the streamed
increments (the transient continuation marker is shown while streaming but
never committed). -/
theorem c4_commit_is_stream_concat (s : SessionState) (p : String)
    (chunks : List String) (hp : p ≠ "") :
    (handleChat s p (StreamOutcome.success chunks)).state.messages
        = s.messages ++
            [{ role := Role.user, content := p },
             { role := Role.assistant, content := String.join chunks }]
    ∧ (handleChat s p (StreamOutcome.success chunks)).displayed
        = (streamFold chunks).2 ++ [String.join chunks] := by
  constructor
  · simp [handleChat, hp, streamFold_fst]
  · simp [handleChat, hp, streamFold_fst]

/-- Witness for C4: three streamed increments commit as their concatenation,
with the continuation marker only on the intermediate displays. -/
theorem c4_commit_is_stream_concat_witness :
    (handleChat init0 "hi" (StreamOutcome.success ["You ", "can ", "shower."])).state.messages
        = [{ role := Role.user, content := "hi" },
           { role := Role.assistant, content := "You can shower." }]
    ∧ (handleChat init0 "hi" (StreamOutcome.success ["You ", "can ", "shower."])).displayed
        = ["You ▌", "You can ▌", "You can shower.▌", "You can shower."] := by
  have h := c4_commit_is_stream_concat init0 "hi" ["You ", "can ", "shower."] (by decide)
  exact ⟨h.1.trans (by decide), h.2.trans (by decide)⟩

/-- C5: the protocol loader returns the empty string for an absent directory,
and otherwise the concatenation, in listing order, of a header line
`\n\n=== <filename> ===\n\n` followed by the file's content for each matching
file (the empty listing yields the empty string). -/
theorem c5_load_protocols_spec :
    load_protocols none = ""
    ∧ load_protocols (some []) = ""
    ∧ ∀ files : List (String × String),
        load_protocols (some files) = spec_protocol_concat files := by
  refine ⟨rfl, rfl, ?_⟩
  intro files
  cases files with
  | nil => rfl
  | cons f rest =>
      show (f :: rest).foldl _ "" = _
      rw [load_protocols_foldl]
      simp

/-- C6: pressing "Clear Chat History" empties the transcript and leaves the
reference bundle (documents and protocol text) untouched, while a chat event
— the only other operation — only ever appends to the transcript. -/
theorem c6_clear_frame (s : SessionState) :
    (step s Event.clear).messages = []
    ∧ (step s Event.clear).pdf_contents = s.pdf_contents
    ∧ (step s Event.clear).protocols_text = s.protocols_text
    ∧ ∀ p o, ∃ t, (step s (Event.chat p o)).messages = s.messages ++ t := by
  refine ⟨rfl, rfl, rfl, ?_⟩
  intro p o
  by_cases hp : p = ""
  · exact ⟨[], by simp [step, handleChat, hp]⟩
  · cases o with
    | success chunks =>
        exact ⟨[{ role := Role.user, content := p },
                { role := Role.assistant, content := (streamFold chunks).1 }],
          by simp [step, handleChat, hp]⟩
    | failure pre e =>
        exact ⟨[{ role := Role.user, content := p }], by simp [step, handleChat, hp]⟩

/-- C7 counterexample: a whitespace-only (but nonempty) prompt is truthy for
the walrus guard, so the turn handler does transition — it appends turns and
assembles a payload — refuting the claim that whitespace-only input is
ignored. -/
theorem c7_whitespace_counterexample :
    (handleChat init0 " " (StreamOutcome.success ["ok"])).state.messages
        = [{ role := Role.user, content := " " },
           { role := Role.assistant, content := "ok" }]
    ∧ (handleChat init0 " " (StreamOutcome.success ["ok"])).payload ≠ none := by
  refine ⟨by decide, by decide⟩

/-- C7 (amended): only the empty input is ignored — the handler leaves the
state unchanged, assembles no payload and makes no provider call — while any
nonempty input, whitespace-only included, is processed as a normal turn
(payload assembled from the transcript with its user turn appended, and the
transcript changed). -/
theorem c7_empty_input_ignored (s : SessionState) (o : StreamOutcome) (p : String) :
    handleChat s "" o
        = { state := s, payload := none, displayed := [], error_shown := none }
    ∧ (p ≠ "" →
        (handleChat s p o).payload
            = some (build_api_messages
                (s.messages ++ [{ role := Role.user, content := p }]) s.pdf_contents)
          ∧ (handleChat s p o).state.messages ≠ s.messages) := by
  constructor
  · simp [handleChat]
  · intro hp
    constructor
    · cases o <;> simp [handleChat, hp]
    · cases o with
      | success chunks =>
          intro hcontra
          have := congrArg List.length hcontra
          simp [handleChat, hp] at this
      | failure pre e =>
          intro hcontra
          have := congrArg List.length hcontra
          simp [handleChat, hp] at this

/-- Witness for C7 (amended) at a concrete state and prompt. -/
theorem c7_empty_input_ignored_witness :
    handleChat init1 "" (StreamOutcome.success ["ok"])
        = { state := init1, payload := none, displayed := [], error_shown := none }
    ∧ ((handleChat init1 "hi" (StreamOutcome.success ["ok"])).payload
          = some (build_api_messages
              (init1.messages ++ [{ role := Role.user, content := "hi" }])
              init1.pdf_contents)
        ∧ (handleChat init1 "hi" (StreamOutcome.success ["ok"])).state.messages
            ≠ init1.messages) :=
  ⟨(c7_empty_input_ignored init1 (StreamOutcome.success ["ok"]) "hi").1,
   (c7_empty_input_ignored init1 (StreamOutcome.success ["ok"]) "hi").2 (by decide)⟩

/-- C9: no event ever changes the loaded reference bundle — over any sequence
of chat turns (successful or failed, including the first-turn payload
assembly that appends the text item to a copy of the document list) and
clears, the stored document sequence and protocol text equal the initial
ones. -/
theorem c9_bundle_never_mutated (s : SessionState) (es : List Event) :
    (runEvents s es).pdf_contents = s.pdf_contents
    ∧ (runEvents s es).protocols_text = s.protocols_text := by
  induction es generalizing s with
  | nil => exact ⟨rfl, rfl⟩
  | cons e rest ih =>
    have hstep : (step s e).pdf_contents = s.pdf_contents
        ∧ (step s e).protocols_text = s.protocols_text := by
      cases e with
      | chat p o => by_cases hp : p = "" <;> cases o <;> simp [step, handleChat, hp]
      | clear => exact ⟨rfl, rfl⟩
    have hrest := ih (step s e)
    exact ⟨hrest.1.trans hstep.1, hrest.2.trans hstep.2⟩

/-- A run of successful chat turns preserves the committed form. -/
theorem committedForm_runSuccess (s : SessionState) (h : committedForm s.messages)
    (ps : List (String × List String)) :
    committedForm (runEvents s (ps.map fun pc =>
      Event.chat pc.1 (StreamOutcome.success pc.2))).messages := by
  induction ps generalizing s with
  | nil => exact h
  | cons pc rest ih => exact ih _ (committedForm_success s pc.1 pc.2 h)

/-- C2 counterexample: starting from an empty session, a failed turn followed
by a successful one reaches the transcript `user, user, assistant`, whose
roles do not strictly alternate — so alternation is not an invariant over
arbitrary sequences of successful and failed turns. -/
theorem c2_alternation_counterexample :
    alternatingFrom Role.user (rolesOf (runEvents init0
      [Event.chat "first" (StreamOutcome.failure [] "boom"),
       Event.chat "second" (StreamOutcome.success ["ok"])]).messages) = false := by
  decide

/-- C2 (amended): starting from an empty transcript, after any run of
successful turns the roles strictly alternate `user, assistant, …` starting
with `user`; a failed turn after such a run leaves the roles alternating and
the last role equal to `user`.  (After a failure, a later successful turn can
produce consecutive `user` roles, so the invariant does not extend to
arbitrary mixed sequences.) -/
theorem c2_alternation_amended (s0 : SessionState) (ps : List (String × List String))
    (h0 : s0.messages = []) :
    alternatingFrom Role.user
        (rolesOf (runEvents s0 (ps.map fun pc =>
          Event.chat pc.1 (StreamOutcome.success pc.2))).messages) = true
    ∧ ∀ p pre err, p ≠ "" →
        alternatingFrom Role.user
            (rolesOf (handleChat
              (runEvents s0 (ps.map fun pc => Event.chat pc.1 (StreamOutcome.success pc.2)))
              p (StreamOutcome.failure pre err)).state.messages) = true
        ∧ (rolesOf (handleChat
              (runEvents s0 (ps.map fun pc => Event.chat pc.1 (StreamOutcome.success pc.2)))
              p (StreamOutcome.failure pre err)).state.messages).getLast?
            = some Role.user := by
  have hc : committedForm s0.messages := by
    rw [h0]; exact ⟨rfl, rfl⟩
  have hfin := committedForm_runSuccess s0 hc ps
  exact ⟨hfin.1, fun p pre err hp => failedTurn_form _ p pre err hp hfin⟩

/-- Witness for C2 (amended): one successful exchange then a failed turn. -/
theorem c2_alternation_amended_witness :
    alternatingFrom Role.user
        (rolesOf (runEvents init0 ([("q1", ["a1"])].map fun pc =>
          Event.chat pc.1 (StreamOutcome.success pc.2))).messages) = true
    ∧ (alternatingFrom Role.user
          (rolesOf (handleChat
            (runEvents init0 ([("q1", ["a1"])].map fun pc =>
              Event.chat pc.1 (StreamOutcome.success pc.2)))
            "q2" (StreamOutcome.failure [] "boom")).state.messages) = true
        ∧ (rolesOf (handleChat
            (runEvents init0 ([("q1", ["a1"])].map fun pc =>
              Event.chat pc.1 (StreamOutcome.success pc.2)))
            "q2" (StreamOutcome.failure [] "boom")).state.messages).getLast?
          = some Role.user) :=
  ⟨(c2_alternation_amended init0 [("q1", ["a1"])] rfl).1,
   (c2_alternation_amended init0 [("q1", ["a1"])] rfl).2 "q2" [] "boom" (by decide)⟩

/-- C8: evaluating the loader and the sidebar counter on the scenario input —
a protocols directory holding exactly `wound_care.txt` and `pt_schedule.txt`
(whose contents contain no `===`) — the concatenated string holds both
headers in directory order, but `protocols_text.count("===")` counts the
marker on both sides of each header, so the sidebar displays 4, not the 2
protocol files the spec says it reports. -/
theorem c8_protocol_count_evaluation :
    load_protocols (some protocols_two_files)
        = "\n\n=== wound_care.txt ===\n\nKeep the incision dry for 48 hours.\n\n=== pt_schedule.txt ===\n\nBegin passive motion in week one."
    ∧ sidebar_protocol_line (load_protocols (some protocols_two_files)) = some 4
    ∧ protocols_two_files.length = 2 := by
  refine ⟨by decide, by decide, rfl⟩

/-- Every payload sent from a state whose transcript is already nonempty is
free of document attachments, as long as no clear event occurs. -/
theorem sentPayloads_nonempty_docfree (es : List Event) (s : SessionState)
    (hm : s.messages ≠ []) (hnc : ∀ e ∈ es, e ≠ Event.clear) :
    ∀ pl ∈ sentPayloads s es, payloadDocCount pl = 0 := by
  induction es generalizing s with
  | nil => intro pl hpl; simp [sentPayloads] at hpl
  | cons e rest ih =>
    intro pl hpl
    cases e with
    | clear => exact absurd rfl (hnc Event.clear (by simp))
    | chat p o =>
      have hnc' : ∀ e ∈ rest, e ≠ Event.clear := fun e he => hnc e (by simp [he])
      by_cases hp : p = ""
      · rw [show sentPayloads s (Event.chat p o :: rest) = sentPayloads s rest by
            simp [sentPayloads, handleChat, hp]] at hpl
        exact ih s hm hnc' pl hpl
      · have hlen : (s.messages ++ [({ role := Role.user, content := p } : Msg)]).length ≠ 1 := by
          cases hs : s.messages with
          | nil => exact absurd hs hm
          | cons a l => simp
        have hdoc : payloadDocCount (build_api_messages
            (s.messages ++ [({ role := Role.user, content := p } : Msg)]) s.pdf_contents) = 0 := by
          have heq : build_api_messages
              (s.messages ++ [({ role := Role.user, content := p } : Msg)]) s.pdf_contents
              = (s.messages ++ [({ role := Role.user, content := p } : Msg)]).map
                  fun m => ({ role := m.role, content := ApiContent.plain m.content } : ApiMessage) := by
            simp [build_api_messages, hlen, hm]
          rw [heq]
          exact payloadDocCount_map_plain _
        cases o with
        | success chunks =>
          rw [show sentPayloads s (Event.chat p (StreamOutcome.success chunks) :: rest)
              = build_api_messages
                  (s.messages ++ [({ role := Role.user, content := p } : Msg)]) s.pdf_contents
                :: sentPayloads
                  { s with messages :=
                      (s.messages ++ [({ role := Role.user, content := p } : Msg)]) ++
                        [({ role := Role.assistant, content := (streamFold chunks).1 } : Msg)] }
                  rest by
            simp [sentPayloads, handleChat, hp]] at hpl
          rcases List.mem_cons.mp hpl with h1 | h2
          · rw [h1]; exact hdoc
          · exact ih _ (by simp) hnc' pl h2
        | failure pre e2 =>
          rw [show sentPayloads s (Event.chat p (StreamOutcome.failure pre e2) :: rest)
              = build_api_messages
                  (s.messages ++ [({ role := Role.user, content := p } : Msg)]) s.pdf_contents
                :: sentPayloads
                  { s with messages :=
                      s.messages ++ [({ role := Role.user, content := p } : Msg)] }
                  rest by
            simp [sentPayloads, handleChat, hp]] at hpl
          rcases List.mem_cons.mp hpl with h1 | h2
          · rw [h1]; exact hdoc
          · exact ih _ (by simp) hnc' pl h2

/-- C10 counterexample: in a single session, a successful first exchange, a
press of "Clear Chat History", and a new first message transmit the document
attachments twice — so attachments are not sent at most once per session. -/
theorem c10_attachments_counterexample :
    payloadsWithDocs (sentPayloads init1
      [Event.chat "hi" (StreamOutcome.success ["ok"]),
       Event.clear,
       Event.chat "again" (StreamOutcome.success ["ok"])]) = 2 := by
  decide

/-- C10 (amended): in any session starting from an empty transcript in which
the clear-history control is never invoked, at most one provider call carries
document attachments, and any payload that does carry them is the single
first-turn user message: the stored document list followed by one trailing
text item.  In particular, after a failed first call every later call in such
a session is attachment-free. -/
theorem c10_attachments_amended (es : List Event) (s : SessionState)
    (hm : s.messages = []) (hnc : ∀ e ∈ es, e ≠ Event.clear) :
    payloadsWithDocs (sentPayloads s es) ≤ 1
    ∧ ∀ pl ∈ sentPayloads s es, payloadDocCount pl ≠ 0 →
        ∃ txt, pl = [{ role := Role.user,
                       content := ApiContent.items
                         (s.pdf_contents ++ [ContentItem.text txt]) }] := by
  induction es generalizing s with
  | nil =>
    exact ⟨by simp [sentPayloads, payloadsWithDocs],
      by intro pl hpl; simp [sentPayloads] at hpl⟩
  | cons e rest ih =>
    cases e with
    | clear => exact absurd rfl (hnc Event.clear (by simp))
    | chat p o =>
      have hnc' : ∀ e2 ∈ rest, e2 ≠ Event.clear := fun e2 he => hnc e2 (by simp [he])
      by_cases hp : p = ""
      · have hsent : sentPayloads s (Event.chat p o :: rest) = sentPayloads s rest := by
          simp [sentPayloads, handleChat, hp]
        rw [hsent]
        exact ih s hm hnc'
      · have hapi : build_api_messages
            (s.messages ++ [({ role := Role.user, content := p } : Msg)]) s.pdf_contents
            = [{ role := Role.user,
                 content := ApiContent.items (s.pdf_contents ++ [ContentItem.text p]) }] := by
          rw [hm]
          simp [build_api_messages]
        have hpay : (handleChat s p o).payload
            = some (build_api_messages
                (s.messages ++ [({ role := Role.user, content := p } : Msg)]) s.pdf_contents) := by
          cases o <;> simp [handleChat, hp]
        have hmsg : (handleChat s p o).state.messages ≠ [] := by
          cases o <;> simp [handleChat, hp]
        have hsent : sentPayloads s (Event.chat p o :: rest)
            = build_api_messages
                (s.messages ++ [({ role := Role.user, content := p } : Msg)]) s.pdf_contents
              :: sentPayloads (handleChat s p o).state rest := by
          simp [sentPayloads, hpay]
        have htail := sentPayloads_nonempty_docfree rest (handleChat s p o).state hmsg hnc'
        have hcount0 : (sentPayloads (handleChat s p o).state rest).countP
            (fun pl => payloadDocCount pl != 0) = 0 := by
          rw [List.countP_eq_zero]
          intro a ha
          simp [htail a ha]
        constructor
        · rw [hsent]
          show List.countP _ _ ≤ 1
          rw [List.countP_cons, hcount0]
          split <;> omega
        · intro pl hpl hdocne
          rw [hsent] at hpl
          rcases List.mem_cons.mp hpl with h1 | h2
          · exact ⟨p, h1.trans hapi⟩
          · exact absurd (htail pl h2) hdocne

/-- Witness for C10 (amended): a failed first call followed by a successful
second turn, no clear — at most one payload carries documents, and the only
document-carrying payload shape is the first-turn one. -/
theorem c10_attachments_amended_witness :
    payloadsWithDocs (sentPayloads init1
        [Event.chat "hi" (StreamOutcome.failure [] "err"),
         Event.chat "again" (StreamOutcome.success ["ok"])]) ≤ 1
    ∧ ∃ txt, build_api_messages
          [{ role := Role.user, content := "hi" }] init1.pdf_contents
        = [{ role := Role.user,
             content := ApiContent.items
               (init1.pdf_contents ++ [ContentItem.text txt]) }] :=
  ⟨(c10_attachments_amended
      [Event.chat "hi" (StreamOutcome.failure [] "err"),
       Event.chat "again" (StreamOutcome.success ["ok"])] init1 rfl (by decide)).1,
   (c10_attachments_amended
      [Event.chat "hi" (StreamOutcome.failure [] "err"),
       Event.chat "again" (StreamOutcome.success ["ok"])] init1 rfl (by decide)).2
      (build_api_messages [{ role := Role.user, content := "hi" }] init1.pdf_contents)
      (by decide) (by decide)⟩

end PostOp
